import Mathlib

/-!
Verification of the Pit Strategy Decision Engine of the racing-data-platform
repository.  The repository ships the React calling layer
(frontend/src/components/PitStrategyPanel.jsx, frontend/src/services/api.js);
the Python engine (backend/core/pit_strategy.py, backend/core/tire_model.py)
is not part of the given sources, so the engine below is modelled from the
specification.  Floats are modelled as rationals; laps as integers.
-/

namespace Racing

/-- Modelled from the spec: tire compound tags, the fixed set soft, medium, hard
(backend tire model is missing from the sources). -/
inductive Compound
  | soft
  | medium
  | hard
deriving DecidableEq, Repr

/-- Modelled from the spec: parsing of the external compound tag; any tag
outside the three known ones is invalid (missing backend validation layer). -/
def parseCompound : String → Option Compound
  | "soft" => some Compound.soft
  | "medium" => some Compound.medium
  | "hard" => some Compound.hard
  | _ => none

/-- Modelled from the spec: base per-lap degradation rate by compound,
soft 0.08 s/lap, medium 0.05 s/lap, hard 0.03 s/lap (missing backend tire model). -/
def baseDegradationRate : Compound → ℚ
  | Compound.soft => 8 / 100
  | Compound.medium => 5 / 100
  | Compound.hard => 3 / 100

/-- Modelled from the spec: nominal usable life in laps, inversely related to
the degradation rate; concrete constants chosen so that medium has adjusted
life 25 at the nominal temperature, preserving the ordering invariants
(missing backend tire model). -/
def baseTireLife : Compound → ℚ
  | Compound.soft => 15
  | Compound.medium => 25
  | Compound.hard => 40

/-- Modelled from the spec: nominal track temperature of about 25 degrees C. -/
def nominalTemp : ℚ := 25

/-- Modelled from the spec: temperature factor peaking at the nominal
temperature and decreasing monotonically as temperature departs from nominal,
hotter tracks shortening life faster than cooler ones; bounded below by a
positive floor (missing backend tire model). -/
def tempFactor (t : ℚ) : ℚ :=
  if nominalTemp ≤ t then max (1 - (t - nominalTemp) / 50) (1 / 10)
  else max (1 - (nominalTemp - t) / 100) (1 / 10)

/-- Modelled from the spec: usable tire life adjusted by the temperature
factor (missing backend tire model). -/
def adjustedLife (c : Compound) (t : ℚ) : ℚ := baseTireLife c * tempFactor t

/-- Modelled from the spec: derived tire status category. -/
inductive TireCondition
  | good
  | warning
  | critical
deriving DecidableEq, Repr

/-- Modelled from the spec: performance index
max(0, 100 * (1 - stint_laps / adjusted_life)) (missing backend tire model). -/
def performanceIndex (c : Compound) (stint t : ℚ) : ℚ :=
  max 0 (100 * (1 - stint / adjustedLife c t))

/-- Modelled from the spec: status thresholds, critical below 30, warning
below 60, good otherwise (missing backend tire model). -/
def statusOf (pi : ℚ) : TireCondition :=
  if pi < 30 then TireCondition.critical
  else if pi < 60 then TireCondition.warning
  else TireCondition.good

/-- Modelled from the spec: degradation rate returned to the caller, the base
rate scaled by the same temperature factor (missing backend tire model). -/
def degradationRate (c : Compound) (t : ℚ) : ℚ :=
  baseDegradationRate c * tempFactor t

/-- Modelled from the spec: the derived TireStatus record. -/
structure TireStatus where
  performance_index : ℚ
  status : TireCondition
  estimated_remaining_laps : ℚ
  degradation_rate : ℚ
deriving DecidableEq, Repr

/-- Modelled from the spec: the TireDegradationModel evaluation over a
validated compound, stint length and track temperature (missing backend
tire model). -/
def evaluateTireStatusCore (c : Compound) (stint t : ℚ) : TireStatus :=
  { performance_index := performanceIndex c stint t
    status := statusOf (performanceIndex c stint t)
    estimated_remaining_laps := max 0 (adjustedLife c t - stint)
    degradation_rate := degradationRate c t }

/-- Modelled from the spec: the typed error taxonomy, ValidationError naming
the failing field and ArithmeticError at the FuelModel boundary (missing
backend error handling). -/
inductive EngineError
  | validation (field : String)
  | arithmetic (msg : String)
deriving DecidableEq, Repr

/-- Modelled from the spec: the external evaluate_tire_status entry point,
rejecting an unknown compound tag and negative stint laps before any model
runs, with track_temp optional defaulting to the nominal value (missing
backend interface layer). -/
def evaluate_tire_status (compound : String) (stint : ℚ) (trackTemp : Option ℚ) :
    Except EngineError TireStatus :=
  match parseCompound compound with
  | none => Except.error (EngineError.validation "compound")
  | some c =>
    if stint < 0 then Except.error (EngineError.validation "current_stint_laps")
    else Except.ok (evaluateTireStatusCore c stint (trackTemp.getD nominalTemp))

/-- Modelled from the spec: fixed reference per-lap fuel burn rate used as the
default consumption rate (missing backend fuel model); 2 L/lap as in Scenario B. -/
def defaultConsumptionRate : ℚ := 2

/-- Modelled from the spec: FuelModel laps-on-fuel, fuel_remaining divided by
the consumption rate, failing with an arithmetic error on a rate at or below
zero (missing backend fuel model). -/
def fuelLapsOnFuel (fuel rate : ℚ) : Except EngineError ℚ :=
  if rate ≤ 0 then Except.error (EngineError.arithmetic "consumption_rate")
  else Except.ok (fuel / rate)

/-- Modelled from the spec: GapAnalyzer base pit-lane time loss constant
(missing backend gap analyzer). -/
def basePitLoss : ℚ := 25

/-- Modelled from the spec: discounted pit-lane time loss under caution
(missing backend gap analyzer). -/
def cautionPitLoss : ℚ := 12

/-- Modelled from the spec: estimated pit-lane time loss, the base constant
discounted substantially when a caution is active (missing backend gap
analyzer). -/
def pitTimeLoss (isCaution : Bool) : ℚ :=
  if isCaution then cautionPitLoss else basePitLoss

/-- Modelled from the spec: undercut opportunity weight, increasing as
gap_ahead decreases (missing backend gap analyzer). -/
def undercutOpportunity (gapAhead : ℚ) : ℚ := max 0 (1 - gapAhead / 10)

/-- Modelled from the spec: a candidate pit window. -/
structure PitWindow where
  lap_start : ℤ
  lap_end : ℤ
  reason : String
  estimated_time_loss : ℚ
  confidence : ℚ
deriving DecidableEq, Repr

/-- Modelled from the spec: planner acceptance threshold for a window's
confidence (missing backend planner). -/
def acceptanceThreshold : ℚ := 6 / 10

/-- Modelled from the spec: the small lookahead in laps used by transition
rule 4 (missing backend planner). -/
def lookahead : ℤ := 3

/-- Modelled from the spec: clamp a candidate anchor lap into the live range
from the current lap to the final lap. -/
def clampLap (current total l : ℤ) : ℤ := min total (max current l)

/-- Modelled from the spec: the lap at which the tire performance index is
projected to cross the warning threshold of 60, clamped to the live range
(missing backend planner). -/
def tireAnchorLap (current total : ℤ) (life stint : ℚ) : ℤ :=
  clampLap current total (current + max 0 ⌈(2 / 5 : ℚ) * life - stint⌉)

/-- Modelled from the spec: the lap at which the fuel on board would be
exhausted, clamped to the live range (missing backend planner). -/
def fuelAnchorLap (current total : ℤ) (lapsOnFuel : ℚ) : ℤ :=
  clampLap current total (current + max 0 ⌊lapsOnFuel⌋)

/-- Modelled from the spec: a window's confidence, decreasing with distance
from the present lap, increased when another signal agrees on the same lap,
kept within 0 and 1 (missing backend planner). -/
def windowConfidence (current anchor : ℤ) (agree : Bool) : ℚ :=
  min 1 (max (1 / 10) (9 / 10 - ((anchor - current : ℤ) : ℚ) / 20) +
    (if agree then 1 / 20 else 0))

/-- Modelled from the spec: build one candidate window at an anchor lap with
its time loss from the gap analyzer (missing backend planner). -/
def mkWindow (current total anchor : ℤ) (reason : String) (isCaution agree : Bool) :
    PitWindow :=
  { lap_start := anchor
    lap_end := min total (anchor + 2)
    reason := reason
    estimated_time_loss := pitTimeLoss isCaution
    confidence := windowConfidence current anchor agree }

/-- Modelled from the spec: the planner ordering, ascending lap_start with
ties broken by lower estimated_time_loss (missing backend planner). -/
def WindowLE (a b : PitWindow) : Prop :=
  a.lap_start < b.lap_start ∨
    (a.lap_start = b.lap_start ∧ a.estimated_time_loss ≤ b.estimated_time_loss)

instance : DecidableRel WindowLE := fun a b => by
  unfold WindowLE; infer_instance

instance : IsTotal PitWindow WindowLE where
  total a b := by
    unfold WindowLE
    rcases lt_trichotomy a.lap_start b.lap_start with h | h | h
    · exact Or.inl (Or.inl h)
    · rcases le_total a.estimated_time_loss b.estimated_time_loss with h2 | h2
      · exact Or.inl (Or.inr ⟨h, h2⟩)
      · exact Or.inr (Or.inr ⟨h.symm, h2⟩)
    · exact Or.inr (Or.inl h)

instance : IsTrans PitWindow WindowLE where
  trans a b c hab hbc := by
    unfold WindowLE at *
    rcases hab with h1 | ⟨h1, h1'⟩ <;> rcases hbc with h2 | ⟨h2, h2'⟩
    · exact Or.inl (h1.trans h2)
    · exact Or.inl (h2 ▸ h1)
    · exact Or.inl (h1 ▸ h2)
    · exact Or.inr ⟨h1.trans h2, h1'.trans h2'⟩

/-- Modelled from the spec: the PitWindowPlanner, generating candidate
windows anchored on the projected tire warning crossing, the fuel exhaustion
lap, and, under caution, the current lap, then sorting them ascending by
lap_start with the documented tie-break (missing backend planner). -/
def planWindows (current total : ℤ) (life stint lapsOnFuel : ℚ)
    (isCaution : Bool) : List PitWindow :=
  let ta := tireAnchorLap current total life stint
  let fa := fuelAnchorLap current total lapsOnFuel
  let tireW := mkWindow current total ta "tire-wear" isCaution (decide (ta = fa))
  let fuelW := mkWindow current total fa "fuel-exhaustion" isCaution (decide (ta = fa))
  let cautionList :=
    if isCaution then
      [mkWindow current total current "caution" true
        (decide (current = ta) || decide (current = fa))]
    else []
  List.insertionSort WindowLE (cautionList ++ [tireW, fuelW])

/-- Modelled from the spec: the terminal states of the RecommendationEngine
state machine. -/
inductive EngineState
  | stayOut
  | pitWindowOpen
  | pitNow
deriving DecidableEq, Repr

/-- Modelled from the spec: should_pit is true in every state except STAY_OUT. -/
def shouldPitOf : EngineState → Bool
  | EngineState.stayOut => false
  | _ => true

/-- Modelled from the spec: the bundle produced by the engine's state
machine: terminal state, strategy tag, optimal lap, reasoning log. -/
structure EngineResult where
  state : EngineState
  strategy : String
  optimal_lap : Option ℤ
  reasoning : List String
deriving DecidableEq, Repr

/-- Modelled from the spec: the lap_start of the top-ranked window, the
current lap when the list is empty. -/
def headLapStart (ws : List PitWindow) (current : ℤ) : ℤ :=
  match ws with
  | [] => current
  | w :: _ => w.lap_start

/-- Modelled from the spec: the RecommendationEngine state machine, its five
transition rules evaluated in strict order, the first rule that fires
determining the terminal state and appending one reasoning entry (missing
backend recommendation engine). -/
def runEngine (current total : ℤ) (tire : TireStatus) (lof : ℚ)
    (isCaution : Bool) (ws : List PitWindow) : EngineResult :=
  if tire.status = TireCondition.critical then
    { state := EngineState.pitNow
      strategy := "tire-critical"
      optimal_lap := some (headLapStart ws current)
      reasoning := ["tire-critical: performance index below critical threshold"] }
  else if lof < ((total - current : ℤ) : ℚ) then
    { state := EngineState.pitNow
      strategy := "fuel-critical"
      optimal_lap := some (headLapStart ws current)
      reasoning := ["fuel-critical: fuel laps fewer than remaining laps"] }
  else if isCaution = true ∧ ∃ w ∈ ws, w.reason = "caution" then
    { state := EngineState.pitWindowOpen
      strategy := "undercut"
      optimal_lap := some current
      reasoning := ["caution: pit window open at reduced time loss"] }
  else
    match ws with
    | w :: _ =>
      if w.lap_start ≤ current + lookahead ∧ acceptanceThreshold < w.confidence then
        { state := EngineState.pitWindowOpen
          strategy := "planned-window"
          optimal_lap := some w.lap_start
          reasoning := ["planned window within lookahead accepted"] }
      else
        { state := EngineState.stayOut
          strategy := "conservative"
          optimal_lap := none
          reasoning := ["no rule fired: stay out"] }
    | [] =>
      { state := EngineState.stayOut
        strategy := "conservative"
        optimal_lap := none
        reasoning := ["no rule fired: stay out"] }

/-- Modelled from the spec: the flat PitRecommendation result. -/
structure PitRecommendation where
  should_pit : Bool
  state : EngineState
  strategy : String
  optimal_lap : Option ℤ
  reasoning : List String
  windows : List PitWindow
  laps_on_fuel : ℚ
  fuel_consumption_rate : ℚ
deriving DecidableEq, Repr

/-- Modelled from the spec: the flat external input set of
evaluate_pit_recommendation. -/
structure RaceInputs where
  current_lap : ℤ
  total_laps : ℤ
  current_position : ℤ
  fuel_remaining : ℚ
  tire_compound : String
  tire_stint_laps : ℚ
  gap_ahead : ℚ
  gap_behind : ℚ
  is_caution : Bool
deriving DecidableEq, Repr

/-- Modelled from the spec: input validation, rejecting an unknown compound
tag, a current lap at or beyond the total, and negative laps, fuel or gaps,
before any model runs (missing backend validation layer). -/
def validateInputs (i : RaceInputs) : Except EngineError Compound :=
  match parseCompound i.tire_compound with
  | none => Except.error (EngineError.validation "tire_compound")
  | some c =>
    if i.current_lap < 0 then Except.error (EngineError.validation "current_lap")
    else if i.total_laps ≤ i.current_lap then
      Except.error (EngineError.validation "current_lap")
    else if i.tire_stint_laps < 0 then
      Except.error (EngineError.validation "tire_stint_laps")
    else if i.fuel_remaining < 0 then
      Except.error (EngineError.validation "fuel_remaining")
    else if i.gap_ahead < 0 then Except.error (EngineError.validation "gap_ahead")
    else if i.gap_behind < 0 then Except.error (EngineError.validation "gap_behind")
    else Except.ok c

/-- Modelled from the spec: the evaluation pipeline after validation: tire
model, planner, then the state machine, returning the flat recommendation
with the full windows list regardless of the decision (missing backend
recommendation engine). -/
def evaluatePitCore (i : RaceInputs) (c : Compound) (lof : ℚ) : PitRecommendation :=
  let tire := evaluateTireStatusCore c i.tire_stint_laps nominalTemp
  let life := adjustedLife c nominalTemp
  let ws := planWindows i.current_lap i.total_laps life i.tire_stint_laps lof i.is_caution
  let res := runEngine i.current_lap i.total_laps tire lof i.is_caution ws
  { should_pit := shouldPitOf res.state
    state := res.state
    strategy := res.strategy
    optimal_lap := res.optimal_lap
    reasoning := res.reasoning
    windows := ws
    laps_on_fuel := lof
    fuel_consumption_rate := defaultConsumptionRate }

/-- Modelled from the spec: the external evaluate_pit_recommendation entry
point: validation first, then the fuel model at the default consumption rate,
then the core pipeline (missing backend interface layer). -/
def evaluate_pit_recommendation (i : RaceInputs) :
    Except EngineError PitRecommendation :=
  match validateInputs i with
  | Except.error e => Except.error e
  | Except.ok c =>
    match fuelLapsOnFuel i.fuel_remaining defaultConsumptionRate with
    | Except.error e => Except.error e
    | Except.ok lof => Except.ok (evaluatePitCore i c lof)

/-- Modelled from the spec: one whole-race compound strategy row. -/
structure CompoundStrategy where
  compound : Compound
  tire_life : ℤ
  can_finish : Bool
  pit_stops_needed : ℤ
  total_time_impact : ℚ
  recommended : Bool
deriving DecidableEq, Repr

/-- Modelled from the spec: the comparator's tire life per compound, the
adjusted usable life at the neutral track temperature with a fresh stint
(missing backend comparator). -/
def comparatorTireLife (c : Compound) : ℤ := ⌊adjustedLife c nominalTemp⌋

/-- Modelled from the spec: ceiling of an integer quotient, used for the pit
stop count (missing backend comparator). -/
def ceilDivQ (a b : ℤ) : ℤ := ⌈((a : ℚ) / (b : ℚ))⌉

/-- Modelled from the spec: triangular number used to integrate a linearly
growing per-lap degradation loss over one stint. -/
def triangular (n : ℤ) : ℤ := n * (n - 1) / 2

/-- Modelled from the spec: cumulative degradation loss over the remaining
laps, integrating the compound's degradation rate over the laps actually run
on full stints plus the final shorter stint (missing backend comparator). -/
def degLoss (remaining life : ℤ) (rate : ℚ) : ℚ :=
  rate * (((remaining / life) * triangular life + triangular (remaining % life) : ℤ) : ℚ)

/-- Modelled from the spec: one compound's strategy row before the
recommendation flag is decided (missing backend comparator). -/
def mkStrategy (remaining : ℤ) (c : Compound) : CompoundStrategy :=
  let life := comparatorTireLife c
  let stops := max 0 (ceilDivQ remaining life - 1)
  { compound := c
    tire_life := life
    can_finish := decide (remaining ≤ life * (stops + 1))
    pit_stops_needed := stops
    total_time_impact := (stops : ℚ) * basePitLoss + degLoss remaining life (baseDegradationRate c)
    recommended := false }

/-- Modelled from the spec: the strict preference order between two strategy
rows: lower total_time_impact, ties broken by fewer pit stops, then by the
compound with the lower degradation rate (missing backend comparator). -/
def StrictlyBetter (a b : CompoundStrategy) : Prop :=
  a.total_time_impact < b.total_time_impact ∨
    (a.total_time_impact = b.total_time_impact ∧
      (a.pit_stops_needed < b.pit_stops_needed ∨
        (a.pit_stops_needed = b.pit_stops_needed ∧
          baseDegradationRate a.compound < baseDegradationRate b.compound)))

instance : DecidableRel StrictlyBetter := fun a b => by
  unfold StrictlyBetter; infer_instance

/-- Modelled from the spec: keep the preferred of two strategy rows. -/
def pickBest (a b : CompoundStrategy) : CompoundStrategy :=
  if StrictlyBetter b a then b else a

/-- Boolean equality of compound tags. -/
def compoundEq : Compound → Compound → Bool
  | Compound.soft, Compound.soft => true
  | Compound.medium, Compound.medium => true
  | Compound.hard, Compound.hard => true
  | _, _ => false

/-- Modelled from the spec: mark a strategy row recommended exactly when it
is feasible and carries the winning compound. -/
def updRecommended (best s : CompoundStrategy) : CompoundStrategy :=
  { s with recommended := s.can_finish && compoundEq s.compound best.compound }

/-- Modelled from the spec: the winner of the three-way comparison under the
documented preference order. -/
def comparatorBest (r : ℤ) : CompoundStrategy :=
  pickBest (pickBest (mkStrategy r Compound.soft) (mkStrategy r Compound.medium))
    (mkStrategy r Compound.hard)

/-- Modelled from the spec: the CompoundComparator, one entry per compound in
the fixed set, marking recommended the feasible strategy that is minimal
under the documented preference order, and none when no compound can finish
(missing backend comparator). -/
def compare_compounds (total current : ℤ) : List CompoundStrategy :=
  let remaining := total - current
  let raw := [mkStrategy remaining Compound.soft,
              mkStrategy remaining Compound.medium,
              mkStrategy remaining Compound.hard]
  match raw.filter (fun s => s.can_finish) with
  | [] => raw
  | f :: fs => raw.map (updRecommended (fs.foldl pickBest f))

/-- The state of PitStrategyPanel that loadStrategyData touches
(PitStrategyPanel.jsx lines 58 to 108). -/
structure PanelState where
  tireStatus : Option TireStatus
  pitRecommendation : Option PitRecommendation
  compoundComparison : Option (List CompoundStrategy)
  error : Option String
  loading : Bool
deriving DecidableEq, Repr

/-- Promise.all over the three strategy requests: it resolves only when all
three resolve, and rejects when any one rejects
(PitStrategyPanel.jsx lines 74 to 96). -/
def promiseAll3 {α β γ : Type} :
    Except String α → Except String β → Except String γ →
      Except String (α × β × γ)
  | Except.ok a, Except.ok b, Except.ok c => Except.ok (a, b, c)
  | Except.error e, _, _ => Except.error e
  | Except.ok _, Except.error e, _ => Except.error e
  | Except.ok _, Except.ok _, Except.error e => Except.error e

/-- loadStrategyData of PitStrategyPanel.jsx (lines 69 to 108): awaits the
three requests with Promise.all inside try/catch/finally; on success the
three result states are replaced and the error is cleared, on failure only
the error state is set; loading ends false either way. -/
def loadStrategyData (s : PanelState)
    (tireData : Except String TireStatus)
    (pitData : Except String PitRecommendation)
    (comparisonData : Except String (List CompoundStrategy)) : PanelState :=
  match promiseAll3 tireData pitData comparisonData with
  | Except.ok (t, p, c) =>
    { s with tireStatus := some t
             pitRecommendation := some p
             compoundComparison := some c
             error := none
             loading := false }
  | Except.error _ =>
    { s with error := some "Failed to load strategy data"
             loading := false }

/-! Basic facts about the tire model. -/

theorem tempFactor_pos (t : ℚ) : 0 < tempFactor t := by
  unfold tempFactor
  split <;> exact lt_of_lt_of_le (by norm_num) (le_max_right _ _)

theorem baseTireLife_pos (c : Compound) : 0 < baseTireLife c := by
  cases c <;> norm_num [baseTireLife]

theorem adjustedLife_pos (c : Compound) (t : ℚ) : 0 < adjustedLife c t :=
  mul_pos (baseTireLife_pos c) (tempFactor_pos t)

theorem statusOf_eq_critical (x : ℚ) :
    statusOf x = TireCondition.critical ↔ x < 30 := by
  unfold statusOf
  split_ifs with h1 h2
  · simp [h1]
  · simp [h1]
  · simp [h1]

theorem statusOf_eq_warning (x : ℚ) :
    statusOf x = TireCondition.warning ↔ 30 ≤ x ∧ x < 60 := by
  unfold statusOf
  split_ifs with h1 h2
  · constructor
    · intro h
      exact absurd h (by simp)
    · intro h
      linarith [h.1]
  · constructor
    · intro _
      exact ⟨le_of_not_lt h1, h2⟩
    · intro _
      rfl
  · constructor
    · intro h
      exact absurd h (by simp)
    · intro h
      exact absurd h.2 h2

theorem statusOf_eq_good (x : ℚ) :
    statusOf x = TireCondition.good ↔ 60 ≤ x := by
  unfold statusOf
  split_ifs with h1 h2
  · constructor
    · intro h
      exact absurd h (by simp)
    · intro h
      linarith
  · constructor
    · intro h
      exact absurd h (by simp)
    · intro h
      linarith
  · constructor
    · intro _
      exact le_of_not_lt h2
    · intro _
      rfl

theorem performanceIndex_nonneg (c : Compound) (stint t : ℚ) :
    0 ≤ performanceIndex c stint t := le_max_left _ _

theorem performanceIndex_zero_stint (c : Compound) (t : ℚ) :
    performanceIndex c 0 t = 100 := by
  unfold performanceIndex
  rw [zero_div]
  norm_num

theorem performanceIndex_exhausted (c : Compound) (stint t : ℚ)
    (h : adjustedLife c t ≤ stint) : performanceIndex c stint t = 0 := by
  unfold performanceIndex
  have hL := adjustedLife_pos c t
  have h1 : (1 : ℚ) ≤ stint / adjustedLife c t := (one_le_div hL).mpr h
  have h2 : 100 * (1 - stint / adjustedLife c t) ≤ 0 := by linarith
  exact max_eq_left h2

/-- claim C2: evaluate_tire_status returns the spec's performance index and
remaining-laps formulas with the critical/warning/good thresholds; a fresh
stint scores 100 and good, an exhausted stint scores 0, critical, with zero
remaining laps; and the Scenario A instance (medium, 20 laps, 25 degrees)
yields performance index 20 with status critical at adjusted life 25. -/
theorem claim_C2 (c : Compound) (stint t : ℚ) (hs : 0 ≤ stint) :
    ((evaluateTireStatusCore c stint t).performance_index
        = max 0 (100 * (1 - stint / adjustedLife c t))
      ∧ (evaluateTireStatusCore c stint t).estimated_remaining_laps
        = max 0 (adjustedLife c t - stint)
      ∧ ((evaluateTireStatusCore c stint t).status = TireCondition.critical
          ↔ (evaluateTireStatusCore c stint t).performance_index < 30)
      ∧ ((evaluateTireStatusCore c stint t).status = TireCondition.warning
          ↔ 30 ≤ (evaluateTireStatusCore c stint t).performance_index
            ∧ (evaluateTireStatusCore c stint t).performance_index < 60)
      ∧ ((evaluateTireStatusCore c stint t).status = TireCondition.good
          ↔ 60 ≤ (evaluateTireStatusCore c stint t).performance_index))
    ∧ (stint = 0 → (evaluateTireStatusCore c stint t).performance_index = 100
        ∧ (evaluateTireStatusCore c stint t).status = TireCondition.good)
    ∧ (adjustedLife c t ≤ stint →
        (evaluateTireStatusCore c stint t).performance_index = 0
        ∧ (evaluateTireStatusCore c stint t).status = TireCondition.critical
        ∧ (evaluateTireStatusCore c stint t).estimated_remaining_laps = 0)
    ∧ ((evaluateTireStatusCore Compound.medium 20 25).performance_index = 20
        ∧ (evaluateTireStatusCore Compound.medium 20 25).status = TireCondition.critical
        ∧ adjustedLife Compound.medium 25 = 25) := by
  refine ⟨⟨rfl, rfl, statusOf_eq_critical _, statusOf_eq_warning _, statusOf_eq_good _⟩,
    ?_, ?_, ?_, ?_, ?_⟩
  · intro h
    subst h
    constructor
    · exact performanceIndex_zero_stint c t
    · show statusOf (performanceIndex c 0 t) = TireCondition.good
      rw [performanceIndex_zero_stint]
      norm_num [statusOf]
  · intro h
    refine ⟨performanceIndex_exhausted c stint t h, ?_, ?_⟩
    · show statusOf (performanceIndex c stint t) = TireCondition.critical
      rw [performanceIndex_exhausted c stint t h]
      norm_num [statusOf]
    · show max 0 (adjustedLife c t - stint) = 0
      have : adjustedLife c t - stint ≤ 0 := by linarith
      exact max_eq_left this
  · show performanceIndex Compound.medium 20 25 = 20
    norm_num [performanceIndex, adjustedLife, baseTireLife, tempFactor, nominalTemp]
  · show statusOf (performanceIndex Compound.medium 20 25) = TireCondition.critical
    norm_num [performanceIndex, adjustedLife, baseTireLife, tempFactor, nominalTemp, statusOf]
  · norm_num [adjustedLife, baseTireLife, tempFactor, nominalTemp]

/-- claim C2 witness at the Scenario A point. -/
theorem claim_C2_witness :
    (0 : ℚ) ≤ 20 ∧ (evaluateTireStatusCore Compound.medium 20 25).performance_index
      = max 0 (100 * (1 - 20 / adjustedLife Compound.medium 25)) :=
  ⟨by norm_num, (claim_C2 Compound.medium 20 25 (by norm_num)).1.1⟩

/-- claim C6: at fixed compound and track temperature the performance index is
monotonically non-increasing in stint laps, and at equal temperature the
degradation rates are strictly ordered soft above medium above hard, each
being the base rate scaled by the same temperature factor. -/
theorem claim_C6 (c : Compound) (t s1 s2 : ℚ) (h : s1 ≤ s2) :
    performanceIndex c s2 t ≤ performanceIndex c s1 t
    ∧ (degradationRate Compound.medium t < degradationRate Compound.soft t
       ∧ degradationRate Compound.hard t < degradationRate Compound.medium t)
    ∧ (∀ c2 : Compound, degradationRate c2 t = baseDegradationRate c2 * tempFactor t) := by
  have hf := tempFactor_pos t
  refine ⟨?_, ⟨?_, ?_⟩, fun _ => rfl⟩
  · unfold performanceIndex
    have hL := adjustedLife_pos c t
    have hdiv : s1 / adjustedLife c t ≤ s2 / adjustedLife c t :=
      (div_le_div_iff_of_pos_right hL).mpr h
    exact max_le_max le_rfl (by linarith)
  · unfold degradationRate baseDegradationRate
    linarith
  · unfold degradationRate baseDegradationRate
    linarith

/-- claim C6 witness at a concrete stint pair. -/
theorem claim_C6_witness :
    (3 : ℚ) ≤ 7 ∧ performanceIndex Compound.soft 7 20 ≤ performanceIndex Compound.soft 3 20 :=
  ⟨by norm_num, (claim_C6 Compound.soft 20 3 7 (by norm_num)).1⟩

/-! Facts about the compound comparator. -/

theorem comparatorTireLife_soft : comparatorTireLife Compound.soft = 15 := by
  norm_num [comparatorTireLife, adjustedLife, baseTireLife, tempFactor, nominalTemp]

theorem comparatorTireLife_medium : comparatorTireLife Compound.medium = 25 := by
  norm_num [comparatorTireLife, adjustedLife, baseTireLife, tempFactor, nominalTemp]

theorem comparatorTireLife_hard : comparatorTireLife Compound.hard = 40 := by
  norm_num [comparatorTireLife, adjustedLife, baseTireLife, tempFactor, nominalTemp]

theorem comparatorTireLife_pos (c : Compound) : 1 ≤ comparatorTireLife c := by
  cases c
  · rw [comparatorTireLife_soft]; omega
  · rw [comparatorTireLife_medium]; omega
  · rw [comparatorTireLife_hard]; omega

theorem mkStrategy_can_finish (r : ℤ) (c : Compound) :
    (mkStrategy r c).can_finish = true := by
  unfold mkStrategy
  simp only [decide_eq_true_eq]
  have hLpos : (1 : ℤ) ≤ comparatorTireLife c := comparatorTireLife_pos c
  by_cases hr : r ≤ 0
  · have h0 : (0 : ℤ) ≤ max 0 (ceilDivQ r (comparatorTireLife c) - 1) := le_max_left _ _
    nlinarith
  · push_neg at hr
    have hLQ : (0 : ℚ) < ((comparatorTireLife c : ℤ) : ℚ) := by
      exact_mod_cast (by omega : (0 : ℤ) < comparatorTireLife c)
    have hceil : 1 ≤ ceilDivQ r (comparatorTireLife c) := by
      unfold ceilDivQ
      have hpos : (0 : ℚ) < (r : ℚ) / ((comparatorTireLife c : ℤ) : ℚ) :=
        div_pos (by exact_mod_cast hr) hLQ
      exact Int.ceil_pos.mpr hpos
    rw [max_eq_right (by omega)]
    have h2 : (r : ℚ) ≤ ((comparatorTireLife c : ℤ) : ℚ) *
        (⌈(r : ℚ) / ((comparatorTireLife c : ℤ) : ℚ)⌉ : ℚ) := by
      have h3 := Int.le_ceil ((r : ℚ) / ((comparatorTireLife c : ℤ) : ℚ))
      calc (r : ℚ) = (r : ℚ) / ((comparatorTireLife c : ℤ) : ℚ) *
            ((comparatorTireLife c : ℤ) : ℚ) := by field_simp
        _ ≤ (⌈(r : ℚ) / ((comparatorTireLife c : ℤ) : ℚ)⌉ : ℚ) *
            ((comparatorTireLife c : ℤ) : ℚ) := mul_le_mul_of_nonneg_right h3 hLQ.le
        _ = ((comparatorTireLife c : ℤ) : ℚ) *
            (⌈(r : ℚ) / ((comparatorTireLife c : ℤ) : ℚ)⌉ : ℚ) := by ring
    have hgoal : (r : ℚ) ≤ ((comparatorTireLife c *
        (ceilDivQ r (comparatorTireLife c) - 1 + 1) : ℤ) : ℚ) := by
      unfold ceilDivQ
      push_cast
      ring_nf
      ring_nf at h2
      linarith
    exact_mod_cast hgoal

theorem SB_irrefl (a : CompoundStrategy) : ¬ StrictlyBetter a a := by
  unfold StrictlyBetter
  rintro (h | ⟨_, h | ⟨_, h⟩⟩) <;> exact absurd h (lt_irrefl _)

theorem SB_asymm {a b : CompoundStrategy} (h : StrictlyBetter a b) :
    ¬ StrictlyBetter b a := by
  unfold StrictlyBetter at *
  rcases h with h1 | ⟨e1, h3 | ⟨e3, h5⟩⟩ <;>
    rintro (h2 | ⟨e2, h4 | ⟨e4, h6⟩⟩) <;> linarith

theorem SB_trans {a b c : CompoundStrategy} (hab : StrictlyBetter a b)
    (hbc : StrictlyBetter b c) : StrictlyBetter a c := by
  unfold StrictlyBetter at *
  rcases hab with h1 | ⟨e1, h3 | ⟨e3, h5⟩⟩ <;> rcases hbc with h2 | ⟨e2, h4 | ⟨e4, h6⟩⟩
  · exact Or.inl (h1.trans h2)
  · exact Or.inl (e2 ▸ h1)
  · exact Or.inl (e2 ▸ h1)
  · exact Or.inl (e1 ▸ h2)
  · exact Or.inr ⟨e1.trans e2, Or.inl (h3.trans h4)⟩
  · exact Or.inr ⟨e1.trans e2, Or.inl (e4 ▸ h3)⟩
  · exact Or.inl (e1 ▸ h2)
  · exact Or.inr ⟨e1.trans e2, Or.inl (e3 ▸ h4)⟩
  · exact Or.inr ⟨e1.trans e2, Or.inr ⟨e3.trans e4, h5.trans h6⟩⟩

theorem not_SB_pickBest (x y z : CompoundStrategy) :
    ¬ StrictlyBetter x (pickBest (pickBest x y) z)
    ∧ ¬ StrictlyBetter y (pickBest (pickBest x y) z)
    ∧ ¬ StrictlyBetter z (pickBest (pickBest x y) z) := by
  unfold pickBest
  by_cases hyx : StrictlyBetter y x
  · rw [if_pos hyx]
    by_cases hzy : StrictlyBetter z y
    · rw [if_pos hzy]
      refine ⟨fun hxz => ?_, SB_asymm hzy, SB_irrefl z⟩
      exact SB_asymm hyx (SB_trans hxz hzy)
    · rw [if_neg hzy]
      exact ⟨fun hxy => SB_asymm hyx hxy, SB_irrefl y, hzy⟩
  · rw [if_neg hyx]
    by_cases hzx : StrictlyBetter z x
    · rw [if_pos hzx]
      refine ⟨SB_asymm hzx, fun hyz => hyx (SB_trans hyz hzx), SB_irrefl z⟩
    · rw [if_neg hzx]
      exact ⟨SB_irrefl x, hyx, hzx⟩

theorem compoundEq_iff (a b : Compound) : compoundEq a b = true ↔ a = b := by
  cases a <;> cases b <;> simp [compoundEq]

theorem compare_compounds_eq (total current : ℤ) :
    compare_compounds total current =
      List.map (updRecommended (comparatorBest (total - current)))
        [mkStrategy (total - current) Compound.soft,
         mkStrategy (total - current) Compound.medium,
         mkStrategy (total - current) Compound.hard] := by
  unfold compare_compounds comparatorBest
  simp [List.filter_cons, mkStrategy_can_finish, List.foldl]

theorem comparatorBest_mem (r : ℤ) :
    comparatorBest r = mkStrategy r Compound.soft
    ∨ comparatorBest r = mkStrategy r Compound.medium
    ∨ comparatorBest r = mkStrategy r Compound.hard := by
  unfold comparatorBest pickBest
  split_ifs <;> simp

theorem comparatorBest_compound (r : ℤ) :
    (comparatorBest r).compound = Compound.soft
    ∨ (comparatorBest r).compound = Compound.medium
    ∨ (comparatorBest r).compound = Compound.hard := by
  rcases comparatorBest_mem r with h | h | h <;> rw [h] <;> simp [mkStrategy]

theorem not_SB_comparatorBest (r : ℤ) :
    ¬ StrictlyBetter (mkStrategy r Compound.soft) (comparatorBest r)
    ∧ ¬ StrictlyBetter (mkStrategy r Compound.medium) (comparatorBest r)
    ∧ ¬ StrictlyBetter (mkStrategy r Compound.hard) (comparatorBest r) :=
  not_SB_pickBest _ _ _

/-- claim C4: every strategy row produced by compare_compounds has
pit_stops_needed = max(0, ceil(remaining / tire_life) - 1) and
can_finish = (tire_life * (pit_stops_needed + 1) >= remaining), with a
positive tire life. -/
theorem claim_C4 (total current : ℤ) (h : current < total) :
    ∀ s ∈ compare_compounds total current,
      1 ≤ s.tire_life
      ∧ s.pit_stops_needed = max 0 (⌈((total - current : ℤ) : ℚ) / (s.tire_life : ℚ)⌉ - 1)
      ∧ (s.can_finish = true ↔ s.tire_life * (s.pit_stops_needed + 1) ≥ total - current) := by
  intro s hs
  rw [compare_compounds_eq] at hs
  simp only [List.mem_map, List.mem_cons, List.not_mem_nil, or_false] at hs
  obtain ⟨y, hy, rfl⟩ := hs
  rcases hy with rfl | rfl | rfl <;>
    refine ⟨comparatorTireLife_pos _, ?_, ?_⟩ <;>
    simp [updRecommended, mkStrategy, ceilDivQ, ge_iff_le, decide_eq_true_eq]

/-- claim C4 witness at total 50, current 10, for the soft-compound row. -/
theorem claim_C4_witness :
    (10 : ℤ) < 50
    ∧ (1 ≤ (updRecommended (comparatorBest (50 - 10))
          (mkStrategy (50 - 10) Compound.soft)).tire_life
      ∧ (updRecommended (comparatorBest (50 - 10))
          (mkStrategy (50 - 10) Compound.soft)).pit_stops_needed
        = max 0 (⌈((50 - 10 : ℤ) : ℚ) / ((updRecommended (comparatorBest (50 - 10))
            (mkStrategy (50 - 10) Compound.soft)).tire_life : ℚ)⌉ - 1)
      ∧ ((updRecommended (comparatorBest (50 - 10))
            (mkStrategy (50 - 10) Compound.soft)).can_finish = true
          ↔ (updRecommended (comparatorBest (50 - 10))
              (mkStrategy (50 - 10) Compound.soft)).tire_life *
              ((updRecommended (comparatorBest (50 - 10))
                (mkStrategy (50 - 10) Compound.soft)).pit_stops_needed + 1)
            ≥ 50 - 10)) :=
  ⟨by omega,
    claim_C4 50 10 (by omega) _
      (by rw [compare_compounds_eq]
          exact List.mem_map_of_mem _ (by simp))⟩

/-- claim C3: compare_compounds covers the fixed compound set exactly once
each; when at least one strategy is feasible exactly one is marked
recommended, namely a feasible row no feasible row strictly beats under the
documented preference order; when none is feasible none is marked. -/
theorem claim_C3 (total current : ℤ) (h0 : 0 ≤ current) (h : current < total) :
    (compare_compounds total current).map (fun s => s.compound)
      = [Compound.soft, Compound.medium, Compound.hard]
    ∧ ((∃ s ∈ compare_compounds total current, s.can_finish = true) →
        ((compare_compounds total current).filter (fun s => s.recommended)).length = 1
        ∧ ∀ s ∈ compare_compounds total current, s.recommended = true →
            s.can_finish = true
            ∧ ∀ t ∈ compare_compounds total current, t.can_finish = true →
                ¬ StrictlyBetter t s)
    ∧ ((∀ s ∈ compare_compounds total current, s.can_finish = false) →
        ((compare_compounds total current).filter (fun s => s.recommended)).length = 0) := by
  have hcc := compare_compounds_eq total current
  refine ⟨?_, ?_, ?_⟩
  · rw [hcc]
    simp [updRecommended, mkStrategy]
  · intro _
    constructor
    · rw [hcc]
      have hcp : ∀ c, (mkStrategy (total - current) c).compound = c := fun _ => rfl
      rcases comparatorBest_compound (total - current) with hb | hb | hb <;>
        simp [List.filter_cons, updRecommended, mkStrategy_can_finish, hcp, hb,
          List.length_cons, compoundEq]
    · intro s hs hrec
      rw [hcc] at hs
      simp only [List.mem_map, List.mem_cons, List.not_mem_nil, or_false] at hs
      obtain ⟨y, hy, rfl⟩ := hs
      have hcf : y.can_finish = true := by
        rcases hy with rfl | rfl | rfl <;> exact mkStrategy_can_finish _ _
      refine ⟨hcf, ?_⟩
      intro t ht _
      rw [hcc] at ht
      simp only [List.mem_map, List.mem_cons, List.not_mem_nil, or_false] at ht
      obtain ⟨w, hw, rfl⟩ := ht
      have hyc : y.compound = (comparatorBest (total - current)).compound := by
        have hr : (y.can_finish && compoundEq y.compound
            (comparatorBest (total - current)).compound) = true := hrec
        rw [hcf, Bool.true_and] at hr
        exact (compoundEq_iff _ _).mp hr
      have hybest : y = comparatorBest (total - current) := by
        rcases comparatorBest_mem (total - current) with hb | hb | hb <;>
          rcases hy with rfl | rfl | rfl <;>
            rw [hb] at hyc ⊢ <;>
              first
                | rfl
                | exact absurd hyc (by simp [mkStrategy])
      have hSB : ¬ StrictlyBetter w (comparatorBest (total - current)) := by
        rcases hw with rfl | rfl | rfl
        · exact (not_SB_comparatorBest (total - current)).1
        · exact (not_SB_comparatorBest (total - current)).2.1
        · exact (not_SB_comparatorBest (total - current)).2.2
      intro hcon
      have hSBwy : StrictlyBetter w y := hcon
      rw [hybest] at hSBwy
      exact hSB hSBwy
  · intro hall
    exfalso
    have hmem : updRecommended (comparatorBest (total - current))
        (mkStrategy (total - current) Compound.soft) ∈ compare_compounds total current := by
      rw [hcc]
      exact List.mem_map_of_mem _ (by simp)
    have hfalse := hall _ hmem
    have htrue : (updRecommended (comparatorBest (total - current))
        (mkStrategy (total - current) Compound.soft)).can_finish = true :=
      mkStrategy_can_finish _ _
    rw [htrue] at hfalse
    exact Bool.noConfusion hfalse

/-- claim C3 witness at total 50, current 10. -/
theorem claim_C3_witness :
    (0 : ℤ) ≤ 10 ∧ (10 : ℤ) < 50
    ∧ (compare_compounds 50 10).map (fun s => s.compound)
      = [Compound.soft, Compound.medium, Compound.hard] :=
  ⟨by omega, by omega, (claim_C3 50 10 (by omega) (by omega)).1⟩

/-! Facts about the pit window planner and the recommendation engine. -/

theorem le_clampLap {current total : ℤ} (h : current ≤ total) (l : ℤ) :
    current ≤ clampLap current total l :=
  le_min h (le_max_left current l)

theorem planWindows_ne_nil (current total : ℤ) (life stint lof : ℚ) (ic : Bool) :
    planWindows current total life stint lof ic ≠ [] := by
  unfold planWindows
  intro h
  have hlen := congrArg List.length h
  rw [List.length_insertionSort] at hlen
  cases ic <;> simp at hlen

theorem planWindows_sorted (current total : ℤ) (life stint lof : ℚ) (ic : Bool) :
    List.Sorted WindowLE (planWindows current total life stint lof ic) := by
  unfold planWindows
  exact List.sorted_insertionSort WindowLE _

theorem planWindows_lap_start_lb (current total : ℤ) (life stint lof : ℚ) (ic : Bool)
    (h : current ≤ total) :
    ∀ w ∈ planWindows current total life stint lof ic, current ≤ w.lap_start := by
  intro w hw
  simp only [planWindows] at hw
  rw [List.mem_insertionSort] at hw
  rcases List.mem_append.mp hw with hw | hw
  · cases ic with
    | false => simp at hw
    | true =>
      simp only [if_true, List.mem_singleton] at hw
      subst hw
      exact le_refl current
  · rcases List.mem_cons.mp hw with rfl | hw
    · exact le_clampLap h _
    · rcases List.mem_cons.mp hw with rfl | hw
      · exact le_clampLap h _
      · simp at hw

theorem planWindows_caution_mem (current total : ℤ) (life stint lof : ℚ) :
    ∃ w ∈ planWindows current total life stint lof true,
      w.reason = "caution" ∧ w.lap_start = current := by
  refine ⟨mkWindow current total current "caution" true
    (decide (current = tireAnchorLap current total life stint)
      || decide (current = fuelAnchorLap current total lof)), ?_, rfl, rfl⟩
  simp only [planWindows]
  rw [List.mem_insertionSort]
  simp

theorem planWindows_head_caution (current total : ℤ) (life stint lof : ℚ)
    (h : current ≤ total) :
    ∃ w t, planWindows current total life stint lof true = w :: t
      ∧ w.lap_start = current := by
  obtain ⟨w, t, hwt⟩ :=
    List.exists_cons_of_ne_nil (planWindows_ne_nil current total life stint lof true)
  refine ⟨w, t, hwt, ?_⟩
  have hsorted := planWindows_sorted current total life stint lof true
  rw [hwt] at hsorted
  have hlb : current ≤ w.lap_start :=
    planWindows_lap_start_lb current total life stint lof true h w
      (by rw [hwt]; exact List.mem_cons_self w t)
  obtain ⟨cw, hcw, _, hcs⟩ := planWindows_caution_mem current total life stint lof
  rw [hwt] at hcw
  rcases List.mem_cons.mp hcw with rfl | hcwt
  · exact hcs
  · have hle : WindowLE w cw := (List.sorted_cons.mp hsorted).1 cw hcwt
    rcases hle with hlt | ⟨heq, _⟩
    · omega
    · omega

/-- The windows the evaluation pipeline hands to the state machine. -/
def pitWindowsOf (i : RaceInputs) (c : Compound) (lof : ℚ) : List PitWindow :=
  planWindows i.current_lap i.total_laps (adjustedLife c nominalTemp)
    i.tire_stint_laps lof i.is_caution

/-- Transition rule 1 of the spec state machine: tire status critical. -/
def pitRuleTireCritical (i : RaceInputs) (c : Compound) : Prop :=
  (evaluateTireStatusCore c i.tire_stint_laps nominalTemp).status = TireCondition.critical

/-- Transition rule 2 of the spec state machine: fuel laps fewer than the
remaining laps. -/
def pitRuleFuelCritical (i : RaceInputs) (lof : ℚ) : Prop :=
  lof < ((i.total_laps - i.current_lap : ℤ) : ℚ)

/-- Transition rule 3 of the spec state machine: caution active and a
caution-anchored window exists. -/
def pitRuleCaution (i : RaceInputs) (c : Compound) (lof : ℚ) : Prop :=
  i.is_caution = true ∧ ∃ w ∈ pitWindowsOf i c lof, w.reason = "caution"

/-- Transition rule 4 of the spec state machine: the top-ranked planner
window opens within the lookahead with confidence above the acceptance
threshold. -/
def pitRuleWindow (i : RaceInputs) (c : Compound) (lof : ℚ) : Prop :=
  ∃ w t, pitWindowsOf i c lof = w :: t
    ∧ w.lap_start ≤ i.current_lap + lookahead
    ∧ acceptanceThreshold < w.confidence

/-- claim C1: should_pit holds exactly when one of the four firing rules
holds; the rules fire in strict order, the first firing rule fixes the
terminal state, and should_pit is false exactly in the STAY_OUT state. -/
theorem claim_C1 (i : RaceInputs) (c : Compound) (lof : ℚ)
    (hvalid : i.current_lap < i.total_laps) :
    ((evaluatePitCore i c lof).should_pit = true ↔
      (pitRuleTireCritical i c ∨ pitRuleFuelCritical i lof
        ∨ pitRuleCaution i c lof ∨ pitRuleWindow i c lof))
    ∧ ((evaluatePitCore i c lof).should_pit = false ↔
        (evaluatePitCore i c lof).state = EngineState.stayOut)
    ∧ (pitRuleTireCritical i c →
        (evaluatePitCore i c lof).state = EngineState.pitNow)
    ∧ (¬ pitRuleTireCritical i c → pitRuleFuelCritical i lof →
        (evaluatePitCore i c lof).state = EngineState.pitNow)
    ∧ (¬ pitRuleTireCritical i c → ¬ pitRuleFuelCritical i lof →
        pitRuleCaution i c lof →
        (evaluatePitCore i c lof).state = EngineState.pitWindowOpen)
    ∧ (¬ pitRuleTireCritical i c → ¬ pitRuleFuelCritical i lof →
        ¬ pitRuleCaution i c lof → pitRuleWindow i c lof →
        (evaluatePitCore i c lof).state = EngineState.pitWindowOpen)
    ∧ (¬ pitRuleTireCritical i c → ¬ pitRuleFuelCritical i lof →
        ¬ pitRuleCaution i c lof → ¬ pitRuleWindow i c lof →
        (evaluatePitCore i c lof).state = EngineState.stayOut) := by
  obtain ⟨w0, tl, hws⟩ := List.exists_cons_of_ne_nil
    (planWindows_ne_nil i.current_lap i.total_laps (adjustedLife c nominalTemp)
      i.tire_stint_laps lof i.is_caution)
  have hwiff : pitRuleWindow i c lof ↔
      (w0.lap_start ≤ i.current_lap + lookahead ∧ acceptanceThreshold < w0.confidence) := by
    constructor
    · rintro ⟨w, t, heq, hw1, hw2⟩
      rw [pitWindowsOf, hws] at heq
      injection heq with h1 h2
      rw [h1]
      exact ⟨hw1, hw2⟩
    · rintro ⟨hw1, hw2⟩
      exact ⟨w0, tl, by rw [pitWindowsOf, hws], hw1, hw2⟩
  have hciff : pitRuleCaution i c lof ↔
      (i.is_caution = true ∧ ∃ w ∈ w0 :: tl, w.reason = "caution") := by
    rw [pitRuleCaution, pitWindowsOf, hws]
  have hcore : evaluatePitCore i c lof =
      { should_pit := shouldPitOf (runEngine i.current_lap i.total_laps
          (evaluateTireStatusCore c i.tire_stint_laps nominalTemp) lof
          i.is_caution (w0 :: tl)).state
        state := (runEngine i.current_lap i.total_laps
          (evaluateTireStatusCore c i.tire_stint_laps nominalTemp) lof
          i.is_caution (w0 :: tl)).state
        strategy := (runEngine i.current_lap i.total_laps
          (evaluateTireStatusCore c i.tire_stint_laps nominalTemp) lof
          i.is_caution (w0 :: tl)).strategy
        optimal_lap := (runEngine i.current_lap i.total_laps
          (evaluateTireStatusCore c i.tire_stint_laps nominalTemp) lof
          i.is_caution (w0 :: tl)).optimal_lap
        reasoning := (runEngine i.current_lap i.total_laps
          (evaluateTireStatusCore c i.tire_stint_laps nominalTemp) lof
          i.is_caution (w0 :: tl)).reasoning
        windows := w0 :: tl
        laps_on_fuel := lof
        fuel_consumption_rate := defaultConsumptionRate } := by
    unfold evaluatePitCore
    simp only [hws]
  rw [hcore, hwiff, hciff]
  simp only [pitRuleTireCritical, pitRuleFuelCritical]
  by_cases hA : (evaluateTireStatusCore c i.tire_stint_laps nominalTemp).status
      = TireCondition.critical
  · simp [runEngine, hA, shouldPitOf, Int.cast_sub]
  · by_cases hB : lof < (i.total_laps : ℚ) - (i.current_lap : ℚ)
    · simp [runEngine, hA, hB, shouldPitOf, Int.cast_sub]
    · by_cases hC : i.is_caution = true ∧ ∃ w ∈ w0 :: tl, w.reason = "caution"
      · obtain ⟨hC1, w1, hw1, hr1⟩ := hC
        have hdisj : w0.reason = "caution" ∨ ∃ a ∈ tl, a.reason = "caution" := by
          rcases List.mem_cons.mp hw1 with rfl | hmem
          · exact Or.inl hr1
          · exact Or.inr ⟨w1, hmem, hr1⟩
        simp [runEngine, hA, hB, hC1, hdisj, shouldPitOf, Int.cast_sub]
      · have hC' : ¬ (i.is_caution = true ∧
            (w0.reason = "caution" ∨ ∃ a ∈ tl, a.reason = "caution")) := by
          simpa using hC
        by_cases hD : w0.lap_start ≤ i.current_lap + lookahead
            ∧ acceptanceThreshold < w0.confidence
        · simp [runEngine, hA, hB, hC', hD, shouldPitOf, Int.cast_sub]
        · simp [runEngine, hA, hB, hC', hD, shouldPitOf, Int.cast_sub]

/-- claim C1 witness at the Scenario C style input. -/
theorem claim_C1_witness :
    (15 : ℤ) < 50
    ∧ ((evaluatePitCore
        { current_lap := 15, total_laps := 50, current_position := 5,
          fuel_remaining := 100, tire_compound := "medium", tire_stint_laps := 5,
          gap_ahead := 5/2, gap_behind := 16/5, is_caution := true }
        Compound.medium 50).should_pit = false ↔
      (evaluatePitCore
        { current_lap := 15, total_laps := 50, current_position := 5,
          fuel_remaining := 100, tire_compound := "medium", tire_stint_laps := 5,
          gap_ahead := 5/2, gap_behind := 16/5, is_caution := true }
        Compound.medium 50).state = EngineState.stayOut) :=
  ⟨by omega,
    (claim_C1
      { current_lap := 15, total_laps := 50, current_position := 5,
        fuel_remaining := 100, tire_compound := "medium", tire_stint_laps := 5,
        gap_ahead := 5/2, gap_behind := 16/5, is_caution := true }
      Compound.medium 50 (show (15 : ℤ) < 50 by omega)).2.1⟩

theorem evaluatePitCore_cons (i : RaceInputs) (c : Compound) (lof : ℚ)
    (w0 : PitWindow) (tl : List PitWindow)
    (hws : planWindows i.current_lap i.total_laps (adjustedLife c nominalTemp)
      i.tire_stint_laps lof i.is_caution = w0 :: tl) :
    evaluatePitCore i c lof =
      { should_pit := shouldPitOf (runEngine i.current_lap i.total_laps
          (evaluateTireStatusCore c i.tire_stint_laps nominalTemp) lof
          i.is_caution (w0 :: tl)).state
        state := (runEngine i.current_lap i.total_laps
          (evaluateTireStatusCore c i.tire_stint_laps nominalTemp) lof
          i.is_caution (w0 :: tl)).state
        strategy := (runEngine i.current_lap i.total_laps
          (evaluateTireStatusCore c i.tire_stint_laps nominalTemp) lof
          i.is_caution (w0 :: tl)).strategy
        optimal_lap := (runEngine i.current_lap i.total_laps
          (evaluateTireStatusCore c i.tire_stint_laps nominalTemp) lof
          i.is_caution (w0 :: tl)).optimal_lap
        reasoning := (runEngine i.current_lap i.total_laps
          (evaluateTireStatusCore c i.tire_stint_laps nominalTemp) lof
          i.is_caution (w0 :: tl)).reasoning
        windows := w0 :: tl
        laps_on_fuel := lof
        fuel_consumption_rate := defaultConsumptionRate } := by
  unfold evaluatePitCore
  simp only [hws]

/-- claim C5: the windows of every recommendation are pairwise ordered
ascending by lap_start, equal-confidence pairs keep the earlier lap_start
first, equal lap_start pairs keep the lower estimated_time_loss first, and
whenever should_pit holds the optimal lap is the lap_start of the first
window of the sorted sequence. -/
theorem claim_C5 (i : RaceInputs) (c : Compound) (lof : ℚ)
    (hvalid : i.current_lap < i.total_laps) :
    List.Pairwise (fun a b : PitWindow => a.lap_start ≤ b.lap_start
        ∧ (a.confidence = b.confidence → a.lap_start ≤ b.lap_start)
        ∧ (a.lap_start = b.lap_start → a.estimated_time_loss ≤ b.estimated_time_loss))
      (evaluatePitCore i c lof).windows
    ∧ ((evaluatePitCore i c lof).should_pit = true →
        ∃ w t, (evaluatePitCore i c lof).windows = w :: t
          ∧ (evaluatePitCore i c lof).optimal_lap = some w.lap_start) := by
  obtain ⟨w0, tl, hws⟩ := List.exists_cons_of_ne_nil
    (planWindows_ne_nil i.current_lap i.total_laps (adjustedLife c nominalTemp)
      i.tire_stint_laps lof i.is_caution)
  rw [evaluatePitCore_cons i c lof w0 tl hws]
  have himp : ∀ {a b : PitWindow}, WindowLE a b →
      (a.lap_start ≤ b.lap_start
        ∧ (a.confidence = b.confidence → a.lap_start ≤ b.lap_start)
        ∧ (a.lap_start = b.lap_start → a.estimated_time_loss ≤ b.estimated_time_loss)) := by
    intro a b hab
    rcases hab with h | ⟨h, h'⟩
    · exact ⟨h.le, fun _ => h.le, fun heq => absurd heq (ne_of_lt h)⟩
    · exact ⟨le_of_eq h, fun _ => le_of_eq h, fun _ => h'⟩
  constructor
  · have hs := planWindows_sorted i.current_lap i.total_laps (adjustedLife c nominalTemp)
      i.tire_stint_laps lof i.is_caution
    rw [hws] at hs
    exact List.Pairwise.imp (fun hab => himp hab) hs
  · intro hsp
    refine ⟨w0, tl, rfl, ?_⟩
    by_cases hA : (evaluateTireStatusCore c i.tire_stint_laps nominalTemp).status
        = TireCondition.critical
    · simp [runEngine, hA, headLapStart]
    · by_cases hB : lof < (i.total_laps : ℚ) - (i.current_lap : ℚ)
      · simp [runEngine, hA, hB, headLapStart, Int.cast_sub]
      · by_cases hC : i.is_caution = true ∧ ∃ w ∈ w0 :: tl, w.reason = "caution"
        · obtain ⟨hC1, w1, hw1, hr1⟩ := hC
          have hdisj : w0.reason = "caution" ∨ ∃ a ∈ tl, a.reason = "caution" := by
            rcases List.mem_cons.mp hw1 with rfl | hmem
            · exact Or.inl hr1
            · exact Or.inr ⟨w1, hmem, hr1⟩
          have hws' : planWindows i.current_lap i.total_laps (adjustedLife c nominalTemp)
              i.tire_stint_laps lof true = w0 :: tl := by
            rw [← hC1]
            exact hws
          obtain ⟨w, t, hwt, hls⟩ := planWindows_head_caution i.current_lap i.total_laps
            (adjustedLife c nominalTemp) i.tire_stint_laps lof hvalid.le
          rw [hws'] at hwt
          injection hwt with hww _
          simp [runEngine, hA, hB, hC1, hdisj, Int.cast_sub]
          rw [← hww] at hls
          omega
        · have hC' : ¬ (i.is_caution = true ∧
              (w0.reason = "caution" ∨ ∃ a ∈ tl, a.reason = "caution")) := by
            simpa using hC
          by_cases hD : w0.lap_start ≤ i.current_lap + lookahead
              ∧ acceptanceThreshold < w0.confidence
          · simp [runEngine, hA, hB, hC', hD, Int.cast_sub]
          · exfalso
            simp [runEngine, hA, hB, hC', hD, shouldPitOf, Int.cast_sub] at hsp

/-- claim C5 witness at the Scenario C style input. -/
theorem claim_C5_witness :
    (15 : ℤ) < 50
    ∧ List.Pairwise (fun a b : PitWindow => a.lap_start ≤ b.lap_start
        ∧ (a.confidence = b.confidence → a.lap_start ≤ b.lap_start)
        ∧ (a.lap_start = b.lap_start → a.estimated_time_loss ≤ b.estimated_time_loss))
      (evaluatePitCore
        { current_lap := 15, total_laps := 50, current_position := 5,
          fuel_remaining := 100, tire_compound := "medium", tire_stint_laps := 5,
          gap_ahead := 5/2, gap_behind := 16/5, is_caution := true }
        Compound.medium 50).windows :=
  ⟨by omega,
    (claim_C5
      { current_lap := 15, total_laps := 50, current_position := 5,
        fuel_remaining := 100, tire_compound := "medium", tire_stint_laps := 5,
        gap_ahead := 5/2, gap_behind := 16/5, is_caution := true }
      Compound.medium 50 (show (15 : ℤ) < 50 by omega)).1⟩

/-- claim C8: when neither the tire-critical nor the fuel-critical rule
fires and a caution is active (so a caution-anchored window exists), the
engine terminates in PIT_WINDOW_OPEN with should_pit true and optimal lap
equal to the current lap. -/
theorem claim_C8 (i : RaceInputs) (c : Compound) (lof : ℚ)
    (hvalid : i.current_lap < i.total_laps)
    (h1 : ¬ pitRuleTireCritical i c)
    (h2 : ¬ pitRuleFuelCritical i lof)
    (h3 : i.is_caution = true) :
    (evaluatePitCore i c lof).state = EngineState.pitWindowOpen
    ∧ (evaluatePitCore i c lof).should_pit = true
    ∧ (evaluatePitCore i c lof).optimal_lap = some i.current_lap := by
  obtain ⟨w0, tl, hws⟩ := List.exists_cons_of_ne_nil
    (planWindows_ne_nil i.current_lap i.total_laps (adjustedLife c nominalTemp)
      i.tire_stint_laps lof i.is_caution)
  rw [evaluatePitCore_cons i c lof w0 tl hws]
  rw [pitRuleTireCritical] at h1
  rw [pitRuleFuelCritical] at h2
  have h2' : ¬ lof < (i.total_laps : ℚ) - (i.current_lap : ℚ) := by
    intro hcon
    exact h2 (by push_cast; linarith)
  have hws' : planWindows i.current_lap i.total_laps (adjustedLife c nominalTemp)
      i.tire_stint_laps lof true = w0 :: tl := by
    rw [← h3]
    exact hws
  obtain ⟨cw, hcwmem, hcr, _⟩ := planWindows_caution_mem i.current_lap i.total_laps
    (adjustedLife c nominalTemp) i.tire_stint_laps lof
  rw [hws'] at hcwmem
  have hdisj : w0.reason = "caution" ∨ ∃ a ∈ tl, a.reason = "caution" := by
    rcases List.mem_cons.mp hcwmem with rfl | hmem
    · exact Or.inl hcr
    · exact Or.inr ⟨cw, hmem, hcr⟩
  simp [runEngine, h1, h2', h3, hdisj, shouldPitOf, Int.cast_sub]

/-- claim C8 witness: Scenario C, caution with good tires and ample fuel. -/
theorem claim_C8_witness :
    ((15 : ℤ) < 50
      ∧ ¬ pitRuleTireCritical
          { current_lap := 15, total_laps := 50, current_position := 5,
            fuel_remaining := 100, tire_compound := "medium", tire_stint_laps := 5,
            gap_ahead := 5/2, gap_behind := 16/5, is_caution := true }
          Compound.medium
      ∧ ¬ pitRuleFuelCritical
          { current_lap := 15, total_laps := 50, current_position := 5,
            fuel_remaining := 100, tire_compound := "medium", tire_stint_laps := 5,
            gap_ahead := 5/2, gap_behind := 16/5, is_caution := true }
          50)
    ∧ ((evaluatePitCore
          { current_lap := 15, total_laps := 50, current_position := 5,
            fuel_remaining := 100, tire_compound := "medium", tire_stint_laps := 5,
            gap_ahead := 5/2, gap_behind := 16/5, is_caution := true }
          Compound.medium 50).should_pit = true
        ∧ (evaluatePitCore
            { current_lap := 15, total_laps := 50, current_position := 5,
              fuel_remaining := 100, tire_compound := "medium", tire_stint_laps := 5,
              gap_ahead := 5/2, gap_behind := 16/5, is_caution := true }
            Compound.medium 50).optimal_lap = some 15) :=
  ⟨⟨by omega,
    by norm_num [pitRuleTireCritical, evaluateTireStatusCore, performanceIndex,
      adjustedLife, baseTireLife, tempFactor, nominalTemp, statusOf] <;> decide,
    by norm_num [pitRuleFuelCritical]⟩,
    (claim_C8
      { current_lap := 15, total_laps := 50, current_position := 5,
        fuel_remaining := 100, tire_compound := "medium", tire_stint_laps := 5,
        gap_ahead := 5/2, gap_behind := 16/5, is_caution := true }
      Compound.medium 50 (show (15 : ℤ) < 50 by omega)
      (by norm_num [pitRuleTireCritical, evaluateTireStatusCore, performanceIndex,
        adjustedLife, baseTireLife, tempFactor, nominalTemp, statusOf] <;> decide)
      (by norm_num [pitRuleFuelCritical])
      rfl).2.1,
    (claim_C8
      { current_lap := 15, total_laps := 50, current_position := 5,
        fuel_remaining := 100, tire_compound := "medium", tire_stint_laps := 5,
        gap_ahead := 5/2, gap_behind := 16/5, is_caution := true }
      Compound.medium 50 (show (15 : ℤ) < 50 by omega)
      (by norm_num [pitRuleTireCritical, evaluateTireStatusCore, performanceIndex,
        adjustedLife, baseTireLife, tempFactor, nominalTemp, statusOf] <;> decide)
      (by norm_num [pitRuleFuelCritical])
      rfl).2.2⟩

/-! Facts about validation and error handling. -/

theorem validateInputs_error_iff (i : RaceInputs) :
    (∃ e, validateInputs i = Except.error e) ↔
      (parseCompound i.tire_compound = none ∨ i.current_lap < 0
        ∨ i.total_laps ≤ i.current_lap ∨ i.tire_stint_laps < 0
        ∨ i.fuel_remaining < 0 ∨ i.gap_ahead < 0 ∨ i.gap_behind < 0) := by
  unfold validateInputs
  cases hp : parseCompound i.tire_compound with
  | none => simp [hp]
  | some c =>
    simp only [hp]
    split_ifs <;> simp_all

theorem validateInputs_error_validation {i : RaceInputs} {e : EngineError}
    (h : validateInputs i = Except.error e) :
    ∃ f, e = EngineError.validation f := by
  unfold validateInputs at h
  cases hp : parseCompound i.tire_compound with
  | none =>
    rw [hp] at h
    injection h with h'
    exact ⟨"tire_compound", h'.symm⟩
  | some c =>
    rw [hp] at h
    split_ifs at h <;> first
      | (injection h with h'; exact ⟨_, h'.symm⟩)
      | exact absurd h (by simp)

theorem defaultConsumptionRate_pos : (0 : ℚ) < defaultConsumptionRate := by
  norm_num [defaultConsumptionRate]

theorem fuelLapsOnFuel_error_iff (fuel rate : ℚ) :
    (∃ e, fuelLapsOnFuel fuel rate = Except.error e) ↔ rate ≤ 0 := by
  unfold fuelLapsOnFuel
  split_ifs with h <;> simp [h]

theorem fuelLapsOnFuel_ok (fuel rate : ℚ) (h : 0 < rate) :
    fuelLapsOnFuel fuel rate = Except.ok (fuel / rate) := by
  unfold fuelLapsOnFuel
  rw [if_neg (not_le.mpr h)]

theorem evaluate_tire_status_error_iff (compound : String) (stint : ℚ)
    (tt : Option ℚ) :
    (∃ e, evaluate_tire_status compound stint tt = Except.error e) ↔
      (parseCompound compound = none ∨ stint < 0) := by
  unfold evaluate_tire_status
  cases hp : parseCompound compound with
  | none => simp [hp]
  | some c => split_ifs with h <;> simp [hp, h]

theorem evaluate_pit_recommendation_ok (i : RaceInputs) (c : Compound)
    (hc : parseCompound i.tire_compound = some c)
    (h1 : 0 ≤ i.current_lap) (h2 : i.current_lap < i.total_laps)
    (h3 : 0 ≤ i.tire_stint_laps) (h4 : 0 ≤ i.fuel_remaining)
    (h5 : 0 ≤ i.gap_ahead) (h6 : 0 ≤ i.gap_behind) :
    evaluate_pit_recommendation i =
      Except.ok (evaluatePitCore i c (i.fuel_remaining / defaultConsumptionRate)) := by
  have hv : validateInputs i = Except.ok c := by
    unfold validateInputs
    simp only [hc, if_neg (not_lt.mpr h1), if_neg (not_le.mpr h2),
      if_neg (not_lt.mpr h3), if_neg (not_lt.mpr h4), if_neg (not_lt.mpr h5),
      if_neg (not_lt.mpr h6)]
  unfold evaluate_pit_recommendation
  rw [hv, fuelLapsOnFuel_ok _ _ defaultConsumptionRate_pos]

/-- claim C7: the two entry points fail exactly on the spec's invalid
inputs, every failure is a typed error (validation errors name the failing
field, the fuel model raises an arithmetic error exactly on a rate at or
below zero), and every other input yields a valid degraded output: an
exhausted stint scores performance index 0, zero fuel yields laps_on_fuel 0
with an automatic PIT_NOW, and laps_on_fuel equals fuel divided by the
consumption rate whenever that rate is positive. -/
theorem claim_C7 :
    (∀ i : RaceInputs, (∃ e, evaluate_pit_recommendation i = Except.error e) ↔
      (parseCompound i.tire_compound = none ∨ i.current_lap < 0
        ∨ i.total_laps ≤ i.current_lap ∨ i.tire_stint_laps < 0
        ∨ i.fuel_remaining < 0 ∨ i.gap_ahead < 0 ∨ i.gap_behind < 0))
    ∧ (∀ (i : RaceInputs) (e : EngineError),
        evaluate_pit_recommendation i = Except.error e →
        ∃ f, e = EngineError.validation f)
    ∧ (∀ (compound : String) (stint : ℚ) (tt : Option ℚ),
        (∃ e, evaluate_tire_status compound stint tt = Except.error e) ↔
          (parseCompound compound = none ∨ stint < 0))
    ∧ (∀ fuel rate : ℚ, (∃ e, fuelLapsOnFuel fuel rate = Except.error e) ↔ rate ≤ 0)
    ∧ (∀ (fuel rate : ℚ) (e : EngineError), fuelLapsOnFuel fuel rate = Except.error e →
        e = EngineError.arithmetic "consumption_rate" ∧ rate ≤ 0)
    ∧ (∀ fuel rate : ℚ, 0 < rate → fuelLapsOnFuel fuel rate = Except.ok (fuel / rate))
    ∧ (∀ (i : RaceInputs) (r : PitRecommendation),
        evaluate_pit_recommendation i = Except.ok r →
        r.laps_on_fuel = i.fuel_remaining / defaultConsumptionRate)
    ∧ (∀ (compound : String) (c : Compound) (stint : ℚ) (tt : Option ℚ),
        parseCompound compound = some c → 0 ≤ stint →
        adjustedLife c (tt.getD nominalTemp) ≤ stint →
        evaluate_tire_status compound stint tt =
          Except.ok (evaluateTireStatusCore c stint (tt.getD nominalTemp))
        ∧ (evaluateTireStatusCore c stint (tt.getD nominalTemp)).performance_index = 0)
    ∧ (∀ (i : RaceInputs) (c : Compound), parseCompound i.tire_compound = some c →
        0 ≤ i.current_lap → i.current_lap < i.total_laps → 0 ≤ i.tire_stint_laps →
        0 ≤ i.gap_ahead → 0 ≤ i.gap_behind → i.fuel_remaining = 0 →
        ∃ r, evaluate_pit_recommendation i = Except.ok r
          ∧ r.laps_on_fuel = 0
          ∧ r.state = EngineState.pitNow
          ∧ r.should_pit = true) := by
  have hrate : ¬ defaultConsumptionRate ≤ 0 := not_le.mpr defaultConsumptionRate_pos
  refine ⟨?_, ?_, evaluate_tire_status_error_iff, fuelLapsOnFuel_error_iff, ?_, fuelLapsOnFuel_ok,
    ?_, ?_, ?_⟩
  · intro i
    rw [← validateInputs_error_iff]
    cases hv : validateInputs i with
    | error e => simp [evaluate_pit_recommendation, hv]
    | ok c => simp [evaluate_pit_recommendation, hv, fuelLapsOnFuel, hrate]
  · intro i e h
    unfold evaluate_pit_recommendation at h
    cases hv : validateInputs i with
    | error e' =>
      rw [hv] at h
      injection h with h'
      exact h' ▸ validateInputs_error_validation hv
    | ok c =>
      rw [hv, fuelLapsOnFuel_ok _ _ defaultConsumptionRate_pos] at h
      exact absurd h (by simp)
  · intro fuel rate e h
    unfold fuelLapsOnFuel at h
    by_cases hr : rate ≤ 0
    · rw [if_pos hr] at h
      injection h with h'
      exact ⟨h'.symm, hr⟩
    · rw [if_neg hr] at h
      exact absurd h (by simp)
  · intro i r h
    cases hv : validateInputs i with
    | error e =>
      unfold evaluate_pit_recommendation at h
      rw [hv] at h
      exact absurd h (by simp)
    | ok c =>
      unfold evaluate_pit_recommendation at h
      rw [hv, fuelLapsOnFuel_ok _ _ defaultConsumptionRate_pos] at h
      injection h with h'
      subst h'
      rfl
  · intro compound c stint tt hc hs hexh
    constructor
    · unfold evaluate_tire_status
      simp only [hc, if_neg (not_lt.mpr hs)]
    · exact performanceIndex_exhausted c stint _ hexh
  · intro i c hc h1 h2 h3 h5 h6 hfuel
    refine ⟨evaluatePitCore i c (i.fuel_remaining / defaultConsumptionRate), ?_, ?_, ?_, ?_⟩
    · exact evaluate_pit_recommendation_ok i c hc h1 h2 h3 (le_of_eq hfuel.symm) h5 h6
    · show i.fuel_remaining / defaultConsumptionRate = 0
      rw [hfuel, zero_div]
    · show (runEngine i.current_lap i.total_laps
        (evaluateTireStatusCore c i.tire_stint_laps nominalTemp)
        (i.fuel_remaining / defaultConsumptionRate) i.is_caution _).state
        = EngineState.pitNow
      have hlof : i.fuel_remaining / defaultConsumptionRate = 0 := by
        rw [hfuel, zero_div]
      have hB : i.fuel_remaining / defaultConsumptionRate
          < (i.total_laps : ℚ) - (i.current_lap : ℚ) := by
        rw [hlof]
        exact_mod_cast (by omega : (0 : ℤ) < i.total_laps - i.current_lap)
      by_cases hA : (evaluateTireStatusCore c i.tire_stint_laps nominalTemp).status
          = TireCondition.critical
      · simp [runEngine, hA]
      · simp [runEngine, hA, hB]
    · show shouldPitOf (runEngine i.current_lap i.total_laps
        (evaluateTireStatusCore c i.tire_stint_laps nominalTemp)
        (i.fuel_remaining / defaultConsumptionRate) i.is_caution _).state = true
      have hlof : i.fuel_remaining / defaultConsumptionRate = 0 := by
        rw [hfuel, zero_div]
      have hB : i.fuel_remaining / defaultConsumptionRate
          < (i.total_laps : ℚ) - (i.current_lap : ℚ) := by
        rw [hlof]
        exact_mod_cast (by omega : (0 : ℤ) < i.total_laps - i.current_lap)
      by_cases hA : (evaluateTireStatusCore c i.tire_stint_laps nominalTemp).status
          = TireCondition.critical
      · simp [runEngine, hA, shouldPitOf]
      · simp [runEngine, hA, hB, shouldPitOf]

/-- claim C7 witness: an unknown compound tag is rejected. -/
theorem claim_C7_witness :
    ∃ e, evaluate_pit_recommendation
      { current_lap := 15, total_laps := 50, current_position := 5,
        fuel_remaining := 45, tire_compound := "unknown", tire_stint_laps := 15,
        gap_ahead := 5/2, gap_behind := 16/5, is_caution := false }
      = Except.error e :=
  (claim_C7.1 _).mpr (Or.inl (by decide))

/-- claim C9: the engine is a pure function of its inputs, so any two calls
with identical inputs return identical outputs. -/
theorem claim_C9 (i j : RaceInputs) (h : i = j) :
    evaluate_pit_recommendation i = evaluate_pit_recommendation j := by
  rw [h]

/-- claim C9 witness at a concrete input. -/
theorem claim_C9_witness :
    ({ current_lap := 15, total_laps := 50, current_position := 5,
       fuel_remaining := 45, tire_compound := "medium", tire_stint_laps := 15,
       gap_ahead := 5/2, gap_behind := 16/5, is_caution := false } : RaceInputs)
      = { current_lap := 15, total_laps := 50, current_position := 5,
          fuel_remaining := 45, tire_compound := "medium", tire_stint_laps := 15,
          gap_ahead := 5/2, gap_behind := 16/5, is_caution := false }
    ∧ evaluate_pit_recommendation
        { current_lap := 15, total_laps := 50, current_position := 5,
          fuel_remaining := 45, tire_compound := "medium", tire_stint_laps := 15,
          gap_ahead := 5/2, gap_behind := 16/5, is_caution := false }
      = evaluate_pit_recommendation
        { current_lap := 15, total_laps := 50, current_position := 5,
          fuel_remaining := 45, tire_compound := "medium", tire_stint_laps := 15,
          gap_ahead := 5/2, gap_behind := 16/5, is_caution := false } :=
  ⟨rfl, claim_C9 _ _ rfl⟩

/-- claim C10: loadStrategyData awaits the three requests together, so if
any one fails none of the three result states changes and only the error
state is set, while the three are replaced together, with the error
cleared, exactly when all three succeed. -/
theorem claim_C10 (s : PanelState) (rt : Except String TireStatus)
    (rp : Except String PitRecommendation)
    (rc : Except String (List CompoundStrategy)) :
    (((∃ e, rt = Except.error e) ∨ (∃ e, rp = Except.error e)
        ∨ (∃ e, rc = Except.error e)) →
      ((loadStrategyData s rt rp rc).tireStatus = s.tireStatus
        ∧ (loadStrategyData s rt rp rc).pitRecommendation = s.pitRecommendation
        ∧ (loadStrategyData s rt rp rc).compoundComparison = s.compoundComparison
        ∧ (loadStrategyData s rt rp rc).error = some "Failed to load strategy data"))
    ∧ (∀ (t : TireStatus) (p : PitRecommendation) (cmp : List CompoundStrategy),
        rt = Except.ok t → rp = Except.ok p → rc = Except.ok cmp →
        loadStrategyData s rt rp rc =
          { s with tireStatus := some t
                   pitRecommendation := some p
                   compoundComparison := some cmp
                   error := none
                   loading := false }) := by
  cases rt <;> cases rp <;> cases rc <;>
    simp [loadStrategyData, promiseAll3]

/-- claim C10 witness: one failing request leaves the three result states
unchanged. -/
theorem claim_C10_witness :
    ((∃ e, (Except.error "network" : Except String TireStatus) = Except.error e)
      ∨ (∃ e, (Except.error "network" : Except String PitRecommendation) = Except.error e)
      ∨ (∃ e, (Except.error "network" : Except String (List CompoundStrategy))
          = Except.error e))
    ∧ (loadStrategyData
        { tireStatus := none, pitRecommendation := none, compoundComparison := none,
          error := none, loading := true }
        (Except.error "network") (Except.error "network")
        (Except.error "network")).tireStatus
      = ({ tireStatus := none, pitRecommendation := none, compoundComparison := none,
            error := none, loading := true } : PanelState).tireStatus :=
  ⟨Or.inl ⟨"network", rfl⟩,
    ((claim_C10
      { tireStatus := none, pitRecommendation := none, compoundComparison := none,
        error := none, loading := true }
      (Except.error "network") (Except.error "network") (Except.error "network")).1
      (Or.inl ⟨"network", rfl⟩)).1⟩

end Racing
